import Mathlib

/-!
Verification development for the query-resolution core of a LINE chat bot
(`bot_core.py`): text normalization, year extraction, exact/fuzzy matching
against a keyword index, single-year and multi-year reply construction, and
the survey-footer post-processing.  Python strings are modelled as `String`
(operated on through their `List Char` data), Python `float` scores as `ℚ`,
and the regex operations of the source are implemented as explicit scanning
functions over character lists with the same leftmost-match, non-overlapping
semantics as `re.search` / `re.sub` / `re.findall`.
-/

namespace BotCore

/-- Python whitespace (`str.strip` / regex `\s` with Unicode semantics):
ASCII whitespace plus the common Unicode whitespace code points
(NBSP, OGHAM, the U+2000 block, LINE/PARA separators, NNBSP, MMSP,
ideographic space U+3000, NEL). -/
def isPySpace (c : Char) : Bool :=
  c = ' ' || c = '\t' || c = '\n' || c = '\r' || c = '\x0b' || c = '\x0c' ||
  c = '\u0085' || c = ' ' || c = ' ' ||
  (' ' ≤ c && c ≤ ' ') ||
  c = ' ' || c = ' ' || c = ' ' || c = ' ' || c = '　'

/-- ASCII decimal digit (regex `\d`; the source only ever feeds ASCII digits). -/
def isDigitCh (c : Char) : Bool := '0' ≤ c && c ≤ '9'

/-- Python `str.strip()` on the character list: drop leading and trailing whitespace. -/
def pyStripL (l : List Char) : List Char :=
  ((l.dropWhile isPySpace).reverse.dropWhile isPySpace).reverse

/-- Python `str.rstrip()` on the character list: drop trailing whitespace. -/
def pyRstripL (l : List Char) : List Char :=
  (l.reverse.dropWhile isPySpace).reverse

/-- Python `str.strip()` on strings. -/
def pyStrip (s : String) : String := ⟨pyStripL s.data⟩

/-- Python `str.rstrip()` on strings. -/
def pyRstrip (s : String) : String := ⟨pyRstripL s.data⟩

/-- Fuel-driven body of `listReplace` (structural recursion on the fuel so
that the kernel can evaluate it; the fuel never runs out because every step
consumes at least one character when `pat` is non-empty). -/
def listReplaceAux (pat rep : List Char) : ℕ → List Char → List Char
  | 0, l => l
  | _ + 1, [] => []
  | fuel + 1, c :: rest =>
    if pat.isPrefixOf (c :: rest) then
      rep ++ listReplaceAux pat rep fuel ((c :: rest).drop pat.length)
    else
      c :: listReplaceAux pat rep fuel rest

/-- Python `str.replace(pat, rep)`: replace every non-overlapping occurrence of
`pat`, scanning left to right; a replaced region is not rescanned.
(For the empty pattern the source never calls this; we return `l` then.) -/
def listReplace (pat rep : List Char) (l : List Char) : List Char :=
  if pat.isEmpty then l else listReplaceAux pat rep l.length l

/-- Substring test (Python `pat in s`), on character lists. -/
def containsSub (pat : List Char) : List Char → Bool
  | [] => pat.isPrefixOf []
  | c :: rest => pat.isPrefixOf (c :: rest) || containsSub pat rest

/-- Substring test on strings (Python `pat in s`). -/
def strContains (s pat : String) : Bool := containsSub pat.data s.data

/-- Python `str.split(sep)` for a one-character separator, on character lists
(`"".split(sep) = [""]`, like Python). -/
def splitOnChar (sep : Char) : List Char → List (List Char)
  | [] => [[]]
  | c :: rest =>
    match splitOnChar sep rest with
    | [] => [[]]
    | h :: t => if c = sep then [] :: h :: t else (c :: h) :: t

-- =========================
-- Configuration constants (the defaults of the source; env overrides are
-- out of scope).  The float thresholds are modelled as the exact rationals
-- they denote.
-- =========================

def DEFAULT_REPLY : String := "抱歉，該訓練檔找不到符合的資料，請重新輸入或換個說法喔。"

/-- Threshold `0.8` (the float denotes this exact rational; constructed with `mkRat`
because Batteries marks `Rat.div` irreducible, which would block kernel
evaluation). -/
def COVERAGE_THRESHOLD : ℚ := mkRat 4 5

/-- Threshold `0.6`, see `COVERAGE_THRESHOLD` for the `mkRat` form. -/
def SUGGEST_THRESHOLD : ℚ := mkRat 3 5

def SUGGEST_TOPN : ℕ := 3

def MAX_YEAR_SPAN : ℕ := 10

def MIN_QUERY_LEN : ℕ := 8

def ANALYSIS_KEYWORDS : List String := ["比較", "變化", "異動", "差異", "增減", "趨勢"]

def RESULT_HEADER : String := "查詢結果如下："

def SURVEY_URL : String := "https://forms.gle/EzvDwUyq5A8sCQrS7"

def SURVEY_FOOTER_SUCCESS : String :=
  "────────────────\n" ++
  "📊 滿意度調查（約 30 秒）\n" ++
  "為持續精進「AI 工務局主計問答系統」，誠摯邀請您填寫使用體驗回饋與建議：\n" ++
  "👉 " ++ SURVEY_URL ++ "\n" ++
  "（本問卷不蒐集個人資料，僅作系統改善參考，感謝您的協助）"

def SURVEY_FOOTER_FALLBACK : String :=
  "────────────────\n" ++
  "📝 回饋與建議\n" ++
  "若本系統回覆不符合您的查詢需求，可否協助提供您寶貴的建議事項，" ++
  "作為本系統後續精進與資料更新之參考：\n" ++
  "👉 " ++ SURVEY_URL

/-- Source `_REPLACEMENTS`: the ordered synonym/spelling fixes of the source
(the third entry removes the full-width space U+3000). -/
def _REPLACEMENTS : List (String × String) :=
  [("年度", "年"), ("年 度", "年"), ("　", "")]

/-- The character class of `_PUNCT_RE = [，,。．、\s]+`.  Substituting every
(maximal) run of this class with the empty string is the same as deleting
every character of the class, which is how it is implemented here. -/
def isPunctOrSpace (c : Char) : Bool :=
  c = '，' || c = ',' || c = '。' || c = '．' || c = '、' || isPySpace c

/-- Source `_wants_summary`: the input mentions one of the analysis keywords.
(`str(user_text or "")` on a plain string is the string itself.) -/
def _wants_summary (user_text : String) : Bool :=
  ANALYSIS_KEYWORDS.any (fun k => strContains user_text k)

/-- Source `_strip_analysis_keywords`: delete every analysis keyword, then strip. -/
def _strip_analysis_keywords (text : String) : String :=
  pyStrip ⟨ANALYSIS_KEYWORDS.foldl (fun t k => listReplace k.data [] t) text.data⟩

/-- Source `_normalize`: `None → ""`; otherwise strip, apply the ordered
replacements, then delete every `[，,。．、\s]` character
(`_PUNCT_RE.sub("", t)`). -/
def _normalize (text : Option String) : String :=
  match text with
  | none => ""
  | some t =>
    let t1 := pyStripL t.data
    let t2 := _REPLACEMENTS.foldl (fun s p => listReplace p.1.data p.2.data s) t1
    ⟨t2.filter (fun c => !isPunctOrSpace c)⟩

-- =========================
-- Regex scanners.  Each `match*At` function tries the pattern anchored at
-- the head of the list and returns the captured data together with the
-- total matched length.  The patterns of the source are backtrack-free
-- (after a greedy `\s*` the follow-up character class never contains a
-- space), so maximal-munch scanning coincides with `re` semantics.
-- =========================

/-- Python `re.search`: try the anchored matcher at each position, leftmost first
(also at the end-of-string position, as `re` does). -/
def reSearch {β : Type} (m : List Char → Option β) : List Char → Option β
  | [] => m []
  | c :: rest =>
    match m (c :: rest) with
    | some b => some b
    | none => reSearch m rest

/-- Fuel-driven body of `reSubL` (structural recursion on the fuel for
kernel evaluation; every step consumes at least one character). -/
def reSubAux (m : List Char → Option ℕ) : ℕ → List Char → List Char
  | 0, l => l
  | _ + 1, [] => []
  | fuel + 1, c :: rest =>
    match m (c :: rest) with
    | some n =>
      if n = 0 then c :: reSubAux m fuel rest
      else reSubAux m fuel ((c :: rest).drop n)
    | none => c :: reSubAux m fuel rest

/-- Python `re.sub(pat, "", s)`: delete every non-overlapping leftmost match
(`m` returns the matched length; our patterns never match empty, the
`n = 0` guard only serves totality). -/
def reSubL (m : List Char → Option ℕ) (l : List Char) : List Char :=
  reSubAux m l.length l

/-- Fuel-driven body of `reFindAll` (structural recursion on the fuel for
kernel evaluation; the fuel `l.length + 1` also covers the final try at the
end-of-string position). -/
def reFindAllAux {β : Type} (m : List Char → Option (β × ℕ)) :
    ℕ → List Char → List β
  | 0, _ => []
  | _ + 1, [] => (match m [] with | some (b, _) => [b] | none => [])
  | fuel + 1, c :: rest =>
    match m (c :: rest) with
    | some (b, n) =>
      if n = 0 then b :: reFindAllAux m fuel rest
      else b :: reFindAllAux m fuel ((c :: rest).drop n)
    | none => reFindAllAux m fuel rest

/-- Python `re.findall`: collect the group of every non-overlapping leftmost match. -/
def reFindAll {β : Type} (m : List Char → Option (β × ℕ)) (l : List Char) :
    List β :=
  reFindAllAux m (l.length + 1) l

/-- Pattern `\d{3}` at the head: the three digit characters and the remainder. -/
def take3Digits : List Char → Option (List Char × List Char)
  | d1 :: d2 :: d3 :: rest =>
    if isDigitCh d1 && isDigitCh d2 && isDigitCh d3 then some ([d1, d2, d3], rest)
    else none
  | _ => none

def charDigit (c : Char) : ℕ := c.toNat - '0'.toNat

def digitsToNat (g : List Char) : ℕ := g.foldl (fun n c => n * 10 + charDigit c) 0

/-- Pattern `_YEAR_RE = (\d{3})\s*年` anchored at the head: group and matched length. -/
def matchYearAt (l : List Char) : Option (List Char × ℕ) :=
  match take3Digits l with
  | none => none
  | some (g, rest) =>
    let k := (rest.takeWhile isPySpace).length
    match rest.dropWhile isPySpace with
    | '年' :: _ => some (g, 3 + k + 1)
    | _ => none

/-- Pattern `(\d{3})\s*年?` anchored at the head (the `findall` pattern of
`extract_years`): group and matched length. -/
def matchYearOptAt (l : List Char) : Option (List Char × ℕ) :=
  match take3Digits l with
  | none => none
  | some (g, rest) =>
    let k := (rest.takeWhile isPySpace).length
    match rest.dropWhile isPySpace with
    | '年' :: _ => some (g, 3 + k + 1)
    | _ => some (g, 3 + k)

/-- Bare `\d{3}` anchored at the head. -/
def matchThreeAt (l : List Char) : Option (List Char × ℕ) :=
  (take3Digits l).map (fun p => (p.1, 3))

def isDashSep (c : Char) : Bool := c = '-' || c = '~' || c = '－' || c = '—'

def isZhiSep (c : Char) : Bool := c = '至' || c = '到'

/-- Pattern `\d{3}\s*SEP\s*\d{3}\s*年?` anchored at the head, `SEP` a one-character
class: the two numeric groups and the matched length. -/
def matchRangeAt (sep : Char → Bool) (l : List Char) : Option ((ℕ × ℕ) × ℕ) :=
  match take3Digits l with
  | none => none
  | some (g1, r1) =>
    let k1 := (r1.takeWhile isPySpace).length
    match r1.dropWhile isPySpace with
    | [] => none
    | c :: r2 =>
      if sep c then
        let k2 := (r2.takeWhile isPySpace).length
        match take3Digits (r2.dropWhile isPySpace) with
        | none => none
        | some (g2, r3) =>
          let k3 := (r3.takeWhile isPySpace).length
          let extra :=
            match r3.dropWhile isPySpace with
            | '年' :: _ => k3 + 1
            | _ => k3
          some ((digitsToNat g1, digitsToNat g2), 3 + k1 + 1 + k2 + 3 + extra)
      else none

-- =========================
-- Year extraction (`_extract_year`, `_strip_year`, `extract_years`,
-- `strip_year_expression`).
-- =========================

/-- Source `_extract_year`: first `\d{3}` followed by `年`, else first bare `\d{3}`. -/
def _extract_year (text : String) : Option String :=
  match reSearch (fun l => (matchYearAt l).map Prod.fst) text.data with
  | some g => some ⟨g⟩
  | none =>
    match reSearch (fun l => (matchThreeAt l).map Prod.fst) text.data with
    | some g => some ⟨g⟩
    | none => none

/-- Source `_strip_year`: `_YEAR_RE.sub("", t)` then `re.sub(r"\d{3}", "", t)`. -/
def _strip_year (text_norm : String) : String :=
  ⟨reSubL (fun l => (matchThreeAt l).map Prod.snd)
    (reSubL (fun l => (matchYearAt l).map Prod.snd) text_norm.data)⟩

/-- Ascending deduplicated sort (`sorted({...})` of Python). -/
def sortedDedup (ys : List ℕ) : List ℕ :=
  List.insertionSort (· ≤ ·) ys.dedup

/-- The inclusive ascending range `[lo..hi]`, or `[]` when the span exceeds
`MAX_YEAR_SPAN` (the source returns `[]` in that case, with no message). -/
def rangeYears (y1 y2 : ℕ) : List ℕ :=
  let lo := min y1 y2
  let hi := max y1 y2
  if hi - lo + 1 > MAX_YEAR_SPAN then []
  else (List.range (hi - lo + 1)).map (fun i => lo + i)

/-- The first dash-range match of `extract_years` (its step 1), then the
`至/到` range (step 2); `none` when neither syntax occurs. -/
def findRange (s : List Char) : Option (ℕ × ℕ) :=
  match reSearch (fun l => (matchRangeAt isDashSep l).map Prod.fst) s with
  | some p => some p
  | none => reSearch (fun l => (matchRangeAt isZhiSep l).map Prod.fst) s

/-- Source `extract_years`: range syntax first (empty list when the span is too
large), otherwise all three-digit year mentions, deduplicated ascending. -/
def extract_years (text : String) : List ℕ :=
  match findRange text.data with
  | some (y1, y2) => rangeYears y1 y2
  | none =>
    let ys := reFindAll (fun l => (matchYearOptAt l).map (fun p => (digitsToNat p.1, p.2))) text.data
    if ys.isEmpty then [] else sortedDedup ys

/-- Source `strip_year_expression`: delete dash ranges, `至/到` ranges,
`\d{3}\s*年`, then bare `\d{3}`, and strip. -/
def strip_year_expression (text : String) : String :=
  let s1 := reSubL (fun l => (matchRangeAt isDashSep l).map Prod.snd) text.data
  let s2 := reSubL (fun l => (matchRangeAt isZhiSep l).map Prod.snd) s1
  let s3 := reSubL (fun l => (matchYearAt l).map Prod.snd) s2
  let s4 := reSubL (fun l => (matchThreeAt l).map Prod.snd) s3
  pyStrip ⟨s4⟩

-- =========================
-- Knowledge index (`Entry`, `_EXACT_MAP`/`_ENTRIES`).  The two module
-- globals are modelled as an explicit `Index` value threaded through the
-- resolution functions; `mkIndex` is the row loop of `_load_training`
-- (the spreadsheet I/O itself is out of scope).
-- =========================

structure Entry where
  keyword : String
  keyword_norm : String
  keyword_norm_noyear : String
  year : Option String
  description : String
  unit : String
  source_url : String
deriving DecidableEq

structure Index where
  exactPairs : List (String × Entry)
  entries : List Entry
deriving DecidableEq

/-- Source `_EXACT_MAP.get(key)`: the dict assignment `exact_map[kw_norm] = e`
lets the last row with a given normalized keyword win, i.e. lookup on the
reversed insertion list. -/
def exactFind (idx : Index) (key : String) : Option Entry :=
  idx.exactPairs.reverse.lookup key

/-- The row loop of `_load_training`: rows are
`(keywords, description, source_url, unit)`; rows with a blank keyword or
description are skipped. -/
def mkIndex (rows : List (String × String × String × String)) : Index :=
  rows.foldl
    (fun idx row =>
      let kw_raw := pyStrip row.1
      let desc := pyStrip row.2.1
      let src := pyStrip row.2.2.1
      let unit := pyStrip row.2.2.2
      if kw_raw = "" || desc = "" then idx
      else
        let kw_norm := _normalize (some kw_raw)
        let e : Entry :=
          ⟨kw_raw, kw_norm, _strip_year kw_norm, _extract_year kw_raw, desc, unit, src⟩
        ⟨idx.exactPairs ++ [(kw_norm, e)], idx.entries ++ [e]⟩)
    ⟨[], []⟩

/-- Source `_format_answer`: description, with the source URL on its own line
when present. -/
def _format_answer (e : Entry) : String :=
  if e.source_url ≠ "" then e.description ++ "\n" ++ e.source_url
  else e.description

/-- Source `_match_by_exact`. -/
def _match_by_exact (idx : Index) (user_text : String) : Option Entry :=
  let key := _normalize (some user_text)
  if key = "" then none else exactFind idx key

-- =========================
-- Matcher/Scorer.
-- =========================

/-- The `Counter` sum of `_coverage_ratio`: for each distinct character of
the keyword, how many of its occurrences are covered by the query. -/
def hitCount (kw us : List Char) : ℕ :=
  (kw.dedup.map (fun c => min (kw.count c) (us.count c))).sum

/-- Source `_coverage_ratio`: covered fraction of the keyword character multiset. -/
def _coverage_ratio (keyword_norm user_norm : String) : ℚ :=
  if keyword_norm = "" then 0
  else mkRat (hitCount keyword_norm.data user_norm.data) (max 1 keyword_norm.length)

/-- The order of `ranked.sort(key=lambda x: (x[0], x[1]), reverse=True)`:
descending lexicographically by (score, keyword length).  `insertionSort`
with this reflexive total order is stable, like Python `list.sort`. -/
def rankRel (a b : ℚ × ℕ × Entry) : Prop :=
  b.1 < a.1 ∨ (a.1 = b.1 ∧ b.2.1 ≤ a.2.1)

instance : DecidableRel rankRel := fun a b => by
  unfold rankRel; exact inferInstance

instance : IsTotal (ℚ × ℕ × Entry) rankRel where
  total a b := by
    rcases lt_trichotomy a.1 b.1 with h | h | h
    · exact Or.inr (Or.inl h)
    · rcases Nat.le_total a.2.1 b.2.1 with h2 | h2
      · exact Or.inr (Or.inr ⟨h.symm, h2⟩)
      · exact Or.inl (Or.inr ⟨h, h2⟩)
    · exact Or.inl (Or.inl h)

instance : IsTrans (ℚ × ℕ × Entry) rankRel where
  trans a b c hab hbc := by
    rcases hab with h1 | ⟨e1, l1⟩
    · rcases hbc with h2 | ⟨e2, l2⟩
      · exact Or.inl (h2.trans h1)
      · exact Or.inl (e2 ▸ h1)
    · rcases hbc with h2 | ⟨e2, l2⟩
      · exact Or.inl (e1 ▸ h2)
      · exact Or.inr ⟨e1.trans e2, l2.trans l1⟩

/-- Source `_rank_matches`: optional year filter on the candidates, coverage
scoring, stable descending sort by (score, keyword length). -/
def _rank_matches (idx : Index) (user_text : String) (use_year_filter : Bool) :
    List (ℚ × ℕ × Entry) :=
  let user_norm := _normalize (some user_text)
  if user_norm = "" then []
  else
    let user_year := if use_year_filter then _extract_year user_text else none
    let candidates : List Entry :=
      match user_year with
      | some y => idx.entries.filter (fun e => e.year == some y)
      | none => idx.entries
    let ranked := candidates.map
      (fun e => (_coverage_ratio e.keyword_norm user_norm, e.keyword_norm.length, e))
    List.insertionSort rankRel ranked

/-- Source `_rank_matches_noyear`: scoring on the year-stripped keyword against the
year-stripped query, no candidate filter. -/
def _rank_matches_noyear (idx : Index) (user_text : String) :
    List (ℚ × ℕ × Entry) :=
  let user_norm := _normalize (some user_text)
  if user_norm = "" then []
  else
    let user_norm_noyear := _strip_year user_norm
    if user_norm_noyear = "" then []
    else
      let ranked := idx.entries.map
        (fun e => (_coverage_ratio e.keyword_norm_noyear user_norm_noyear,
                   e.keyword_norm_noyear.length, e))
      List.insertionSort rankRel ranked

-- =========================
-- Single-year reply (`build_reply_single_year`).
-- =========================

def GUIDANCE_MISSING_YEAR : String :=
  "看起來您可能少輸入「年度」。\n" ++
  "請在問題前面加上年度（例如：113年）再查詢一次。"

def GUIDANCE_TOO_SHORT : String :=
  "請輸入更完整的查詢關鍵詞（含年度/單位/指標），例如：\n" ++
  "- 113年工務局主管預算數\n" ++
  "- 113年工務局主管經常門\n" ++
  "- 113年工務局暨所屬職員人數"

/-- The "did you mean" text over the top `SUGGEST_TOPN` ranked entries. -/
def suggestionText (ranked : List (ℚ × ℕ × Entry)) : String :=
  let picks := ranked.take SUGGEST_TOPN
  let lines := String.intercalate "\n" (picks.map (fun t => "- " ++ t.2.2.keyword))
  "您是不是要找下列資料：\n" ++ lines ++ "\n" ++
  "（若都不是，請再補充更完整的關鍵詞，例如：年度＋單位＋項目＋職等/門別）"

/-- Source `build_reply_single_year`: missing-year reminder, then the minimum
length gate, then exact match, then confident coverage, then suggestions,
else the default apology. -/
def build_reply_single_year (idx : Index) (user_text : String) : String :=
  let text := pyStrip user_text
  if text = "" then DEFAULT_REPLY
  else
    let user_norm := _normalize (some text)
    let user_year := _extract_year text
    let step1 : Option String :=
      match user_year with
      | some _ => none
      | none =>
        match _rank_matches_noyear idx text with
        | [] => none
        | (r, _, _) :: _ =>
          if COVERAGE_THRESHOLD ≤ r then some GUIDANCE_MISSING_YEAR else none
    match step1 with
    | some g => g
    | none =>
      if user_norm.length < MIN_QUERY_LEN then GUIDANCE_TOO_SHORT
      else
        match _match_by_exact idx text with
        | some e => _format_answer e
        | none =>
          let ranked := _rank_matches idx text true
          match ranked with
          | [] => DEFAULT_REPLY
          | (r, _, e) :: _ =>
            if COVERAGE_THRESHOLD ≤ r then _format_answer e
            else if SUGGEST_THRESHOLD ≤ r then suggestionText ranked
            else DEFAULT_REPLY

/-- Source `_get_entry_for_year_query`: exact match, then confident coverage under
the year filter; no suggestions in the multi-year flow. -/
def _get_entry_for_year_query (idx : Index) (query_text : String) : Option Entry :=
  let text := pyStrip query_text
  if text = "" then none
  else
    match _match_by_exact idx text with
    | some e => some e
    | none =>
      match _rank_matches idx text true with
      | [] => none
      | (r, _, e) :: _ => if COVERAGE_THRESHOLD ≤ r then some e else none

-- =========================
-- Multi-year helpers.
-- =========================

/-- The two-character total markers `總計|總數|合計`: match one at the head
and return the remainder. -/
def dropMarker (l : List Char) : Option (List Char) :=
  if ("總計".data).isPrefixOf l then some (l.drop 2)
  else if ("總數".data).isPrefixOf l then some (l.drop 2)
  else if ("合計".data).isPrefixOf l then some (l.drop 2)
  else none

/-- Pattern `(總計|總數|合計)\s*([\d,]+)` anchored at the head; the value is the
digit run with commas removed.  (A run consisting only of commas would make
the source raise `ValueError` in `int("")`; that branch is modelled as a
failed match and is unreachable for the data shapes used here.) -/
def matchTotalAt (l : List Char) : Option ℕ :=
  match dropMarker l with
  | none => none
  | some rest =>
    let rest2 := rest.dropWhile isPySpace
    let run := rest2.takeWhile (fun c => isDigitCh c || c = ',')
    if run.isEmpty then none
    else
      let digits := run.filter isDigitCh
      if digits.isEmpty then none
      else some (digitsToNat digits)

/-- Source `_extract_total_value`. -/
def _extract_total_value (desc_text : String) : Option ℕ :=
  reSearch matchTotalAt desc_text.data

/-- The excluded class of the fallback-unit pattern
`[^\d\s，。；;、()（）]`. -/
def isUnitExcluded (c : Char) : Bool :=
  isDigitCh c || isPySpace c || c = '，' || c = '。' || c = '；' || c = ';' ||
  c = '、' || c = '(' || c = ')' || c = '（' || c = '）'

/-- Backtracking over the greedy `[\d,]+` of the fallback-unit pattern: try
consuming `k` run characters, longest first, and take up to 8 allowed unit
characters after the following `\s*`. -/
def unitSearchK (rest0 : List Char) : ℕ → Option (List Char)
  | 0 => none
  | k + 1 =>
    let tail := rest0.drop (k + 1)
    let u := ((tail.dropWhile isPySpace).takeWhile (fun c => !isUnitExcluded c)).take 8
    if u.isEmpty then unitSearchK rest0 k else some u

/-- Pattern `(總計|總數|合計)\s*[\d,]+\s*([^\d\s，。；;、()（）]{1,8})` anchored at
the head: the unit group. -/
def matchUnitAt (l : List Char) : Option (List Char) :=
  match dropMarker l with
  | none => none
  | some rest =>
    let rest0 := rest.dropWhile isPySpace
    let run := rest0.takeWhile (fun c => isDigitCh c || c = ',')
    if run.isEmpty then none else unitSearchK rest0 run.length

/-- Source `_fallback_extract_unit`. -/
def _fallback_extract_unit (desc_text : String) : String :=
  match reSearch matchUnitAt desc_text.data with
  | some u => pyStrip ⟨u⟩
  | none => ""

/-- Pattern `(https?://\S+)` anchored at the head. -/
def matchUrlAt (l : List Char) : Option (List Char) :=
  let tryScheme (p : List Char) : Option (List Char) :=
    if p.isPrefixOf l then
      let rest := l.drop p.length
      let run := rest.takeWhile (fun c => !isPySpace c)
      if run.isEmpty then none else some (p ++ run)
    else none
  match tryScheme ("https://".data) with
  | some u => some u
  | none => tryScheme ("http://".data)

/-- Source `_extract_first_url`. -/
def _extract_first_url (ans_text : String) : String :=
  match reSearch matchUrlAt ans_text.data with
  | some u => ⟨u⟩
  | none => ""

/-- Source `_extract_source_text_and_url`: over the stripped non-blank lines, the
first URL anywhere, and the line following the last line that mentions
`資料來源`.  (The replies fed to this function only ever use `\n` line
terminators, so `splitlines` is modelled as splitting on `\n`.) -/
def _extract_source_text_and_url (ans_text : String) : String × String :=
  let lines := (((splitOnChar '\n' ans_text.data).map (fun l => pyStrip ⟨l⟩))).filter (fun l => l ≠ "")
  let n := lines.length
  (List.range n).foldl
    (fun st i =>
      let line := lines.getD i ""
      let su := if st.2 = "" then _extract_first_url line else st.2
      let stx :=
        if strContains line "資料來源" && i + 1 < n then lines.getD (i + 1) ""
        else st.1
      (stx, su))
    ("", "")

-- =========================
-- Number formatting (`{:,}` and `{:.2f}`).
-- =========================

def chunk3 : List Char → List (List Char)
  | a :: b :: c :: rest => [a, b, c] :: chunk3 rest
  | [] => []
  | l => [l]

/-- Python `f"{n:,}"` on a natural number: decimal digits grouped in threes
with commas. -/
def fmtThousands (n : ℕ) : String :=
  ⟨(List.intercalate [','] (chunk3 (toString n).data.reverse)).reverse⟩

/-- Python `f"{z:,}"` on an integer. -/
def fmtIntThousands (z : ℤ) : String :=
  if z < 0 then "-" ++ fmtThousands z.natAbs else fmtThousands z.natAbs

/-- Division of rationals through `mkRat` (the same value as `a / b`;
`Rat.div` is irreducible in Batteries, which would block kernel
evaluation). -/
def qdiv (a b : ℚ) : ℚ :=
  if 0 ≤ b.num then mkRat (a.num * b.den) (a.den * b.num.natAbs)
  else mkRat (-(a.num * b.den)) (a.den * b.num.natAbs)

def pad2 (v : ℕ) : String :=
  if v < 10 then "0" ++ toString v else toString v

/-- Python `f"{q:.2f}"`: two decimal places.  `n` is `⌊|q|·100 + 1/2⌋`
computed in integer arithmetic.  Every value this development formats is an
exact multiple of 1/100, so the rounding mode (here: half-up on the
absolute value) never comes into play. -/
def fmtPct2 (q : ℚ) : String :=
  let n : ℕ := (200 * q.num.natAbs + q.den) / (2 * q.den)
  let s := toString (n / 100) ++ "." ++ pad2 (n % 100)
  if q < 0 then "-" ++ s else s

-- =========================
-- `_format_multiyear_reply` and its inner helpers.
-- =========================

def sortAsc (l : List ℕ) : List ℕ := List.insertionSort (fun a b => a ≤ b) l

def sortDesc (l : List ℕ) : List ℕ := List.insertionSort (fun a b => b ≤ a) l

/-- Source `_topic_no_suffix`: drop a trailing `人數` for display. -/
def _topic_no_suffix (topic : String) : String :=
  let t := pyStrip topic
  if ("人數".data).isSuffixOf t.data then ⟨t.data.dropLast.dropLast⟩ else t

/-- Source `_format_multiyear_line`. -/
def _format_multiyear_line (year : ℕ) (topic : String) (total : Option ℕ)
    (unit : String) : String :=
  let t := _topic_no_suffix topic
  match total with
  | none => toString year ++ "年" ++ t ++ "（查無總計數字）"
  | some v => toString year ++ "年" ++ t ++ "總計" ++ fmtThousands v ++ unit

def firstNonemptyUnit (unit_map : List (ℕ × String)) : List ℕ → String
  | [] => ""
  | y :: rest =>
    let u := pyStrip ((unit_map.lookup y).getD "")
    if u ≠ "" then u else firstNonemptyUnit unit_map rest

/-- Source `_pick_summary_unit`: first non-blank unit, newest year first. -/
def _pick_summary_unit (years_sorted : List ℕ) (unit_map : List (ℕ × String)) :
    String :=
  firstNonemptyUnit unit_map (sortDesc years_sorted)

/-- Source `_trend_sentence`: overall direction, volatility and recency wording
over the resolved series. -/
def _trend_sentence (years2 : List ℕ) (totals2 : List (ℕ × ℕ)) (unit : String) :
    String :=
  let ys := sortAsc (years2.filter (fun y => (totals2.lookup y).isSome))
  if ys.length < 2 then ""
  else
    let first_y := ys.headD 0
    let last_y := ys.getLastD 0
    let first_v := (totals2.lookup first_y).getD 0
    let last_v := (totals2.lookup last_y).getD 0
    let diff : ℤ := (last_v : ℤ) - (first_v : ℤ)
    let base : ℕ := if first_v ≠ 0 then first_v else 1
    let diff_pct : ℚ := mkRat (diff * 100) base
    let series := ys.map (fun y => (totals2.lookup y).getD 0)
    let avg : ℚ := mkRat series.sum (max 1 series.length)
    let rng : ℕ := series.foldl max 0 - series.foldl min (series.headD 0)
    let vol_ratio : ℚ := if avg ≠ 0 then qdiv (rng : ℚ) avg else 0
    let overall :=
      if |diff_pct| < 1 then "整體大致持平"
      else if diff > 0 && |diff_pct| < 5 then "整體呈現小幅成長"
      else if diff > 0 then "整體呈現成長"
      else if |diff_pct| < 5 then "整體呈現小幅下降"
      else "整體呈現下降"
    let volatility :=
      if vol_ratio ≤ mkRat 3 100 then "相對穩定"
      else if vol_ratio ≤ mkRat 8 100 then "呈現小幅波動"
      else "波動較明顯"
    let prev_y := ys.getD (ys.length - 2) 0
    let prev_v := (totals2.lookup prev_y).getD 0
    let recent_diff : ℤ := (last_v : ℤ) - (prev_v : ℤ)
    let recent_phrase :=
      if recent_diff > 0 then toString last_y ++ "年較前期略為回升"
      else if recent_diff < 0 then toString last_y ++ "年較前期略為下滑"
      else toString last_y ++ "年與前期持平"
    let period := toString first_y ++ "–" ++ toString last_y ++ "年"
    let main :=
      if overall = "整體大致持平" then period ++ "整體" ++ volatility
      else if volatility = "相對穩定" then period ++ overall ++ "，走勢" ++ volatility
      else period ++ "整體" ++ volatility
    let unit_hint := if unit ≠ "" then "（單位：" ++ unit ++ "）" else ""
    if recent_phrase ≠ "" then
      "（趨勢摘要）\n" ++ main ++ "，" ++ recent_phrase ++ "。" ++ unit_hint
    else "（趨勢摘要）\n" ++ main ++ "。" ++ unit_hint

/-- One line of the year-pairwise difference table (the body of the
`summary_lines` loop): when the older value `v1` is zero the percentage is
silently `0.0`, rendered `+0.00%`. -/
def summaryLine (y1 y2 : ℕ) (v1 v2 : ℕ) (unit : String) : String :=
  let diff : ℤ := (v2 : ℤ) - (v1 : ℤ)
  let pct : ℚ := if v1 ≠ 0 then mkRat (diff * 100) v1 else 0
  let sign := if diff ≥ 0 then "+" else ""
  toString y2 ++ "年較" ++ toString y1 ++ "年 " ++ sign ++ fmtIntThousands diff ++
    unit ++ "（" ++ sign ++ fmtPct2 pct ++ "%）"

/-- The `for i in range(1, len(ys))` loop of the difference table. -/
def adjacentSummaryLines (totals : List (ℕ × ℕ)) (unit : String) :
    List ℕ → List String
  | y1 :: y2 :: rest =>
    summaryLine y1 y2 ((totals.lookup y1).getD 0) ((totals.lookup y2).getD 0) unit
      :: adjacentSummaryLines totals unit (y2 :: rest)
  | _ => []

/-- The mutable per-year loop state of `_format_multiyear_reply`. -/
structure MYState where
  lines_out : List String
  missing : List ℕ
  totals : List (ℕ × ℕ)
  unit_map : List (ℕ × String)
  source_text : String
  source_url : String
deriving DecidableEq

/-- One iteration of the `for y in sorted(years, reverse=True)` loop. -/
def myStep (year_to_entry : ℕ → Option Entry) (base_topic : String)
    (st : MYState) (y : ℕ) : MYState :=
  match year_to_entry y with
  | none => { st with missing := st.missing ++ [y] }
  | some e =>
    let st1 :=
      if st.source_url = "" && st.source_text = "" then
        let p := _extract_source_text_and_url (_format_answer e)
        { st with source_text := p.1, source_url := p.2 }
      else if st.source_url = "" then
        { st with source_url := _extract_first_url (_format_answer e) }
      else st
    let total := _extract_total_value e.description
    let unit0 := pyStrip e.unit
    let unit := if unit0 = "" then _fallback_extract_unit e.description else unit0
    let st2 := { st1 with unit_map := st1.unit_map ++ [(y, unit)] }
    let st3 :=
      match total with
      | some v => { st2 with totals := st2.totals ++ [(y, v)] }
      | none => st2
    { st3 with lines_out := st3.lines_out ++ [_format_multiyear_line y base_topic total unit] }

/-- Source `_format_multiyear_reply`. -/
def _format_multiyear_reply (years : List ℕ) (year_to_entry : ℕ → Option Entry)
    (base_topic : String) (show_summary : Bool) : String :=
  if years.isEmpty then DEFAULT_REPLY
  else
    let st := (sortDesc years).foldl (myStep year_to_entry base_topic) ⟨[], [], [], [], "", ""⟩
    let body0 :=
      if st.lines_out.isEmpty then "（本次範圍內皆查無符合資料）"
      else String.intercalate "\n" st.lines_out
    let body1 :=
      if st.missing.isEmpty then body0
      else body0 ++ "\n\n（查無資料年度：" ++
        String.intercalate "、" ((sortDesc st.missing).map (fun m => toString m ++ "年")) ++ "）"
    let body2 :=
      if st.source_text ≠ "" || st.source_url ≠ "" then
        let b0 := body1 ++ "\n\n（資料來源）"
        let b1 := if st.source_text ≠ "" then b0 ++ "\n" ++ st.source_text else b0
        if st.source_url ≠ "" then b1 ++ "\n" ++ st.source_url else b1
      else body1
    let body3 :=
      if show_summary && st.totals.length ≥ 2 then
        let summary_unit := _pick_summary_unit years st.unit_map
        let trend := _trend_sentence years st.totals summary_unit
        if trend ≠ "" then body2 ++ "\n\n" ++ trend else body2
      else body2
    if show_summary && st.totals.length ≥ 2 then
      let ys := sortAsc (st.totals.map Prod.fst)
      let summary_unit := _pick_summary_unit ys st.unit_map
      body3 ++ "\n\n" ++
        String.intercalate "\n" ("（年度差異摘要）" :: adjacentSummaryLines st.totals summary_unit ys)
    else body3

-- =========================
-- Footer routing and the entry point (`build_reply`).
-- =========================

/-- Source `_is_success_reply`: the reply counts as "found data" unless it is the
default apology, one of the guidance/suggestion texts, or an all-missing
multi-year result. -/
def _is_success_reply (reply : String) : Bool :=
  let r := pyStrip reply
  if r = "" then false
  else if r = DEFAULT_REPLY then false
  else if ("請輸入更完整的查詢關鍵詞".data).isPrefixOf r.data then false
  else if ("看起來您可能少輸入「年度」".data).isPrefixOf r.data then false
  else if ("您是不是要找下列資料：".data).isPrefixOf r.data then false
  else if strContains r "（本次範圍內皆查無符合資料）" then false
  else true

/-- Source `_prepend_result_header`. -/
def _prepend_result_header (reply : String) : String :=
  let r := pyStrip reply
  if r = "" then r
  else if (RESULT_HEADER.data).isPrefixOf r.data then r
  else if _is_success_reply r then RESULT_HEADER ++ "\n" ++ r
  else r

/-- Source `_append_survey_footer`: skip when the survey URL is already present,
else append the success or fallback footer (`r` is already right-stripped,
so the inner `r.rstrip()` of the source is `r` itself). -/
def _append_survey_footer (reply : String) : String :=
  let r := pyRstrip reply
  if strContains r SURVEY_URL then r
  else
    let footer := if _is_success_reply r then SURVEY_FOOTER_SUCCESS else SURVEY_FOOTER_FALLBACK
    if r = "" then footer else r ++ "\n" ++ footer

/-- Source `build_reply` before the footer step: the three `return` branches of the
source each feed `_append_survey_footer` exactly once, so `build_reply`
factors as the footer applied to this body. -/
def build_reply_body (idx : Index) (user_text : String) : String :=
  let text := pyStrip user_text
  if text = "" then DEFAULT_REPLY
  else
    let years := extract_years text
    if years.length ≥ 2 then
      let show_summary := _wants_summary text
      let cleaned := _strip_analysis_keywords text
      let base_topic := strip_year_expression cleaned
      let reply := _format_multiyear_reply years
        (fun y => _get_entry_for_year_query idx (toString y ++ "年" ++ base_topic))
        base_topic show_summary
      _prepend_result_header reply
    else
      _prepend_result_header (build_reply_single_year idx text)

/-- Source `build_reply`, the resolution entry point. -/
def build_reply (idx : Index) (user_text : String) : String :=
  _append_survey_footer (build_reply_body idx user_text)

/-- Test "ends with" on strings, at the character level. -/
def strEndsWith (s suffix : String) : Bool := suffix.data.isSuffixOf s.data

-- =========================
-- Spec-modelled components.  The comparison engine (§4.4 of the spec) and
-- the administrative `#` query syntax (§6) are described by the spec but
-- absent from `src/bot_core.py`; they are modelled here from the spec's
-- words.  Topic resolution and totals extraction reuse the embedded source
-- functions above.
-- =========================

/-- Modelled from the spec: the open "temporal-comparison" cue list of the
comparison trigger (absent from `src/bot_core.py`). -/
def TEMPORAL_CUES : List String := ["較上一年度", "去年"]

/-- Modelled from the spec: the open "change-action" cue list of the
comparison trigger (absent from `src/bot_core.py`). -/
def CHANGE_CUES : List String := ["變動", "成長", "差額"]

/-- Modelled from the spec: a query is a comparison request when it contains
both a temporal-comparison cue and a change-action cue. -/
def is_compare_query (q : String) : Bool :=
  TEMPORAL_CUES.any (fun k => strContains q k) &&
  CHANGE_CUES.any (fun k => strContains q k)

structure CompareResult where
  value_new : ℕ
  value_old : ℕ
  diff : ℤ
  growth_pct : Option ℚ
  direction : String
deriving DecidableEq

/-- Modelled from the spec: direction label from the sign of the diff, with
an explicit flat case at zero. -/
def compare_direction (diff : ℤ) : String :=
  if diff > 0 then "increase" else if diff < 0 then "decrease" else "flat"

/-- Modelled from the spec: `compare(topic, year_new, year_old)` (absent
from `src/bot_core.py`): resolve the topic independently for both years
through the embedded matcher, extract the numeric totals, and report
`diff`, `growth_pct` (undefined when the old value is zero) and the
direction; any failed resolution is not-found. -/
def compare (idx : Index) (topic : String) (year_new year_old : ℕ) :
    Option CompareResult :=
  match _get_entry_for_year_query idx (toString year_new ++ "年" ++ topic),
        _get_entry_for_year_query idx (toString year_old ++ "年" ++ topic) with
  | some e_new, some e_old =>
    match _extract_total_value e_new.description,
          _extract_total_value e_old.description with
    | some v_new, some v_old =>
      let diff : ℤ := (v_new : ℤ) - (v_old : ℤ)
      some ⟨v_new, v_old, diff,
            if v_old ≠ 0 then some (mkRat (diff * 100) v_old) else none,
            compare_direction diff⟩
    | _, _ => none
  | _, _ => none

/-- Modelled from the spec: delete the cue words from a comparison query
before extracting the topic. -/
def strip_compare_cues (q : String) : String :=
  ⟨(TEMPORAL_CUES ++ CHANGE_CUES).foldl (fun t k => listReplace k.data [] t) q.data⟩

/-- Modelled from the spec: rendering of a comparison outcome (diff with
sign, percentage to two decimals or an explicit non-computable note, and
the direction label). -/
def render_compare (year_new year_old : ℕ) (c : CompareResult) : String :=
  let sign := if c.diff ≥ 0 then "+" else ""
  toString year_new ++ "年較" ++ toString year_old ++ "年 " ++ sign ++
    fmtIntThousands c.diff ++ "（" ++
    (match c.growth_pct with
     | some p => sign ++ fmtPct2 p ++ "%"
     | none => "成長率無法計算") ++ "，" ++ c.direction ++ "）"

/-- Modelled from the spec: the comparison branch of `resolve` (absent from
`src/bot_core.py`): a query carrying both cue classes and a year `Y` is
answered by comparing `Y` against `Y-1` on the year-stripped topic. -/
def resolve_compare (idx : Index) (q : String) : Option String :=
  if is_compare_query q then
    match _extract_year q with
    | none => none
    | some ystr =>
      let y := digitsToNat ystr.data
      let topic := strip_year_expression (strip_compare_cues q)
      match compare idx topic y (y - 1) with
      | some c => some (render_compare y (y - 1) c)
      | none => none
  else none

/-- Modelled from the spec: the reserved administrative marker (absent from
`src/bot_core.py`). -/
def ADMIN_MARKER : String := "#"

/-- Modelled from the spec: the literal usage-error message of the
administrative syntax (absent from `src/bot_core.py`). -/
def ADMIN_USAGE : String := "管理查詢格式錯誤，請輸入：#年度,單位,項目"

/-- Modelled from the spec: parse the comma-separated `year,unit,item`
payload of an administrative query. -/
def admin_parse (payload : String) : Option (String × String × String) :=
  match (splitOnChar ',' payload.data).map (fun l => (⟨l⟩ : String)) with
  | [y, u, i] => if y ≠ "" && u ≠ "" && i ≠ "" then some (y, u, i) else none
  | _ => none

/-- Modelled from the spec: the administrative branch of `resolve` (absent
from `src/bot_core.py`): a `#`-marked query performs an exact-key lookup,
bypassing fuzzy matching; a malformed payload yields the usage message. -/
def admin_resolve (idx : Index) (q : String) : Option String :=
  if (ADMIN_MARKER.data).isPrefixOf q.data then
    some
      (match admin_parse ⟨q.data.drop 1⟩ with
       | some (y, u, i) =>
         (match exactFind idx (_normalize (some (y ++ "年" ++ u ++ i))) with
          | some e => _format_answer e
          | none => DEFAULT_REPLY)
       | none => ADMIN_USAGE)
  else none

-- =========================
-- Helper lemmas.
-- =========================

theorem hitCount_mono (kw : List Char) {u1 u2 : List Char}
    (h : ∀ c : Char, u1.count c ≤ u2.count c) :
    hitCount kw u1 ≤ hitCount kw u2 := by
  unfold hitCount
  exact List.sum_le_sum (fun c _ => min_le_min (le_refl _) (h c))

theorem coverage_mono (kw : String) {u1 u2 : List Char}
    (h : ∀ c : Char, u1.count c ≤ u2.count c) :
    _coverage_ratio kw ⟨u1⟩ ≤ _coverage_ratio kw ⟨u2⟩ := by
  unfold _coverage_ratio
  by_cases hk : kw = ""
  · simp [hk]
  · simp only [hk, if_false, Rat.mkRat_eq_div]
    have hd : (0 : ℚ) < ((max 1 kw.length : ℕ) : ℚ) := by
      exact_mod_cast Nat.lt_of_lt_of_le Nat.zero_lt_one (Nat.le_max_left 1 _)
    rw [div_le_div_iff_of_pos_right hd]
    exact_mod_cast hitCount_mono kw.data h

end BotCore

open BotCore

/-- Claim C1 (spec-modelled): for the query
`113年工務局主管預算數較上一年度變動` with indexed rows for years 113 and
112 carrying totals 1000 and 800, the query is classified as a year-over-year
comparison and the comparison reply reports diff `+200`, growth `+25.00%`
and direction `increase`. -/
theorem C1_compare_example :
    is_compare_query "113年工務局主管預算數較上一年度變動" = true ∧
    compare
        (mkIndex [("113年工務局主管預算數", "總計1,000元", "", ""),
                  ("112年工務局主管預算數", "總計800元", "", "")])
        "工務局主管預算數" 113 112 =
      some ⟨1000, 800, 200, some 25, "increase"⟩ ∧
    resolve_compare
        (mkIndex [("113年工務局主管預算數", "總計1,000元", "", ""),
                  ("112年工務局主管預算數", "總計800元", "", "")])
        "113年工務局主管預算數較上一年度變動" =
      some "113年較112年 +200（+25.00%，increase）" := by
  refine ⟨by decide, by decide, by decide⟩

/-- Claim C9 (spec-modelled): a query starting with the administrative
marker resolves through an exact-key lookup only (any two indexes with the
same exact map give the same answer, so fuzzy data is bypassed), and a
malformed payload yields the literal usage message rather than a crash. -/
theorem C9_admin (idx : Index) (q : String)
    (h : (ADMIN_MARKER.data).isPrefixOf q.data = true) :
    (∀ y u i : String, admin_parse ⟨q.data.drop 1⟩ = some (y, u, i) →
        admin_resolve idx q =
          some (match exactFind idx (_normalize (some (y ++ "年" ++ u ++ i))) with
                | some e => _format_answer e
                | none => DEFAULT_REPLY)) ∧
    (admin_parse ⟨q.data.drop 1⟩ = none → admin_resolve idx q = some ADMIN_USAGE) ∧
    (∀ idx2 : Index, idx2.exactPairs = idx.exactPairs →
        admin_resolve idx2 q = admin_resolve idx q) := by
  refine ⟨?_, ?_, ?_⟩
  · intro y u i hp
    unfold admin_resolve
    rw [if_pos h, hp]
  · intro hp
    unfold admin_resolve
    rw [if_pos h, hp]
  · intro idx2 he
    unfold admin_resolve exactFind
    rw [he]

/-- Witness for C9: a concrete well-formed administrative query resolves to
the indexed description, and a concrete malformed one to the usage text. -/
theorem C9_witness :
    admin_resolve (mkIndex [("113年工務局主管預算數", "有料desc", "", "")])
        "#113,工務局,主管預算數" = some "有料desc" ∧
    admin_resolve (mkIndex [("113年工務局主管預算數", "有料desc", "", "")])
        "#113,工務局" = some ADMIN_USAGE :=
  ⟨((C9_admin (mkIndex [("113年工務局主管預算數", "有料desc", "", "")])
        "#113,工務局,主管預算數" (by decide)).1 "113" "工務局" "主管預算數"
        (by decide)).trans (by decide),
   (C9_admin (mkIndex [("113年工務局主管預算數", "有料desc", "", "")])
        "#113,工務局" (by decide)).2.1 (by decide)⟩

/-- Counterexample for C6: `_normalize` does not lowercase Latin
characters, contrary to the claim. -/
theorem C6_counterexample :
    _normalize (some "ABC年度") = "ABC年" ∧ ¬ _normalize (some "ABC年度") = "abc年" := by
  refine ⟨by decide, by decide⟩

/-- Claim C6 as amended: `_normalize` deletes the punctuation/whitespace
class (Western and full-width), applies the ordered synonym replacements
(e.g. `年度`→`年`), maps `None` and the empty string to the empty string,
and is total (never throws); it does NOT lowercase Latin characters. -/
theorem C6_amended :
    (∀ t : String, ∀ c : Char, c ∈ (_normalize (some t)).data → isPunctOrSpace c = false) ∧
    _normalize none = "" ∧
    _normalize (some "") = "" ∧
    _normalize (some "113年度，工務局 預算") = "113年工務局預算" := by
  refine ⟨?_, rfl, by decide, by decide⟩
  intro t c hc
  simp only [_normalize] at hc
  simpa using (List.mem_filter.mp hc).2

/-- Witness for C6: the general conjunct of the amended claim applied at a
concrete input. -/
theorem C6_witness :
    ('a' ∈ (_normalize (some "a b")).data) ∧ isPunctOrSpace 'a' = false :=
  ⟨by decide, C6_amended.1 "a b" 'a' (by decide)⟩

/-- Counterexample for C4: with totals 0 (year 112) and 200 (year 113) the
difference table reports the growth percentage as `+0.00%` — silently zero,
not an explicit "undefined" marker — both in the extracted per-pair line
and in an actual `build_reply` output. -/
theorem C4_counterexample :
    summaryLine 112 113 0 200 "人" = "113年較112年 +200人（+0.00%）" ∧
    strContains
        (build_reply
          (mkIndex [("112年職員人數", "總計0人", "", ""),
                    ("113年職員人數", "總計200人", "", "")])
          "112-113年職員人數比較")
        "（+0.00%）" = true := by
  refine ⟨by decide, by decide⟩

/-- Claim C4 as amended: the year-pairwise difference computation never
raises when the older value is 0 (the division is guarded), but the growth
percentage is then reported as the literal `+0.00%` — silently zero — not
as undefined/non-computable. -/
theorem C4_amended (y1 y2 v2 : ℕ) (unit : String) :
    summaryLine y1 y2 0 v2 unit =
      toString y2 ++ "年較" ++ toString y1 ++ "年 " ++ "+" ++ fmtThousands v2 ++
        unit ++ "（" ++ "+" ++ "0.00" ++ "%）" := by
  have hge : (0 : ℤ) ≤ (v2 : ℤ) := Int.natCast_nonneg v2
  have hfit : fmtIntThousands (v2 : ℤ) = fmtThousands v2 := by
    unfold fmtIntThousands
    rw [if_neg (by omega), Int.natAbs_ofNat]
  have hpz : fmtPct2 0 = "0.00" := by decide
  simp only [summaryLine, Nat.cast_zero, sub_zero, ne_eq, not_true_eq_false,
    if_false, ge_iff_le, hge, if_true, hfit, hpz]

/-- Counterexample for C5: the query `112,113` normalizes to 6 characters,
below the minimum query length 8, yet `resolve` takes the multi-year path
(no length gate there) and returns a data answer — classified as a success
— not a guidance message. -/
theorem C5_counterexample :
    (_normalize (some "112,113")).length < MIN_QUERY_LEN ∧
    build_reply_body
        (mkIndex [("112年", "總計5人", "", ""), ("113年", "總計6人", "", "")])
        "112,113" =
      "查詢結果如下：\n113年,總計6人\n112年,總計5人" ∧
    _is_success_reply
        (build_reply_body
          (mkIndex [("112年", "總計5人", "", ""), ("113年", "總計6人", "", "")])
          "112,113") = true := by
  refine ⟨by decide, by decide, by decide⟩

/-- Claim C5 as amended: on the single-year path, a non-blank query whose
post-normalization length is below `MIN_QUERY_LEN` always gets one of the
two guidance messages (missing-year or too-short) and never a data answer
(the reply is classified as a non-success); however, when the query lacks a
year, the no-year candidate scoring pass runs before the length gate, and
the multi-year path has no length gate at all. -/
theorem C5_amended (idx : Index) (t : String)
    (h0 : ¬ pyStrip t = "")
    (hl : (_normalize (some (pyStrip t))).length < MIN_QUERY_LEN) :
    (build_reply_single_year idx t = GUIDANCE_MISSING_YEAR ∨
     build_reply_single_year idx t = GUIDANCE_TOO_SHORT) ∧
    _is_success_reply (build_reply_single_year idx t) = false := by
  have hres : build_reply_single_year idx t = GUIDANCE_MISSING_YEAR ∨
      build_reply_single_year idx t = GUIDANCE_TOO_SHORT := by
    simp only [build_reply_single_year, if_neg h0]
    rcases hy : _extract_year (pyStrip t) with _ | y
    · rcases hr : _rank_matches_noyear idx (pyStrip t) with _ | ⟨⟨r, tie, e⟩, rest⟩
      · simp only [if_pos hl]
        right; trivial
      · by_cases hc : COVERAGE_THRESHOLD ≤ r
        · simp only [if_pos hc]
          left; trivial
        · simp only [if_neg hc, if_pos hl]
          right; trivial
    · simp only [if_pos hl]
      right; trivial
  refine ⟨hres, ?_⟩
  rcases hres with h | h <;> rw [h] <;> decide

/-- Witness for C5: a concrete short query on the single-year path gets a
guidance message classified as non-success. -/
theorem C5_witness :
    ¬ pyStrip "113年税" = "" ∧
    (_normalize (some (pyStrip "113年税"))).length < MIN_QUERY_LEN ∧
    ((build_reply_single_year (mkIndex []) "113年税" = GUIDANCE_MISSING_YEAR ∨
      build_reply_single_year (mkIndex []) "113年税" = GUIDANCE_TOO_SHORT) ∧
     _is_success_reply (build_reply_single_year (mkIndex []) "113年税") = false) :=
  ⟨by decide, by decide, C5_amended (mkIndex []) "113年税" (by decide) (by decide)⟩

/-- Counterexample for C3: the range `100-120` (span 21, above
`MAX_YEAR_SPAN = 10`) yields no "range too long" guidance: `extract_years`
silently returns the empty list and `resolve` answers through the
single-year flow — here the generic not-found apology with the fallback
footer. -/
theorem C3_counterexample :
    extract_years "100-120年工務局主管預算數" = [] ∧
    build_reply (mkIndex []) "100-120年工務局主管預算數" =
      DEFAULT_REPLY ++ "\n" ++ SURVEY_FOOTER_FALLBACK := by
  refine ⟨by decide, by decide⟩

/-- Claim C3 as amended: a year range whose inclusive span exceeds
`MAX_YEAR_SPAN` is never truncated — `extract_years` returns the empty
list — and the query falls through to the single-year flow; no dedicated
"range too long" guidance message exists in the code. -/
theorem C3_amended (idx : Index) (t : String) (y1 y2 : ℕ)
    (hr : findRange (pyStrip t).data = some (y1, y2))
    (hspan : MAX_YEAR_SPAN < max y1 y2 - min y1 y2 + 1) :
    extract_years (pyStrip t) = [] ∧
    build_reply idx t =
      _append_survey_footer
        (_prepend_result_header (build_reply_single_year idx (pyStrip t))) := by
  have h1 : extract_years (pyStrip t) = [] := by
    simp only [extract_years, hr, rangeYears]
    rw [if_pos hspan]
  have hne : ¬ pyStrip t = "" := by
    intro he
    rw [he] at hr
    have h2 : findRange ("" : String).data = none := rfl
    rw [h2] at hr
    exact Option.noConfusion hr
  refine ⟨h1, ?_⟩
  simp only [build_reply, build_reply_body, if_neg hne, h1, List.length_nil]
  rw [if_neg (by omega)]

/-- Witness for C3: the amended claim at the concrete over-long range. -/
theorem C3_witness :
    extract_years (pyStrip "100-120年工務局主管預算數") = [] ∧
    build_reply (mkIndex []) "100-120年工務局主管預算數" =
      _append_survey_footer
        (_prepend_result_header
          (build_reply_single_year (mkIndex []) (pyStrip "100-120年工務局主管預算數"))) :=
  C3_amended (mkIndex []) "100-120年工務局主管預算數" 100 120 (by decide) (by decide)

/-- Counterexample for C2: the exact-match step is NOT reached for every
exactly-matching query: a query equal to the short indexed keyword
`113年税` (normalized length 4, below `MIN_QUERY_LEN = 8`) gets the
too-short guidance instead of the entry description. -/
theorem C2_counterexample :
    (exactFind (mkIndex [("113年税", "税项答案", "", "")])
        (_normalize (some "113年税"))).map _format_answer = some "税项答案" ∧
    build_reply_single_year (mkIndex [("113年税", "税项答案", "", "")]) "113年税" =
      GUIDANCE_TOO_SHORT ∧
    GUIDANCE_TOO_SHORT ≠ "税项答案" := by
  refine ⟨by decide, by decide, by decide⟩

/-- Claim C2 as amended: exact matching does return the entry description
verbatim (with the source URL appended when present), and does so for every
raw spelling with the same normalized form — but only when the raw query
also carries a year (else the missing-year reminder can fire first) and its
normalized length reaches `MIN_QUERY_LEN` (else the too-short guidance
fires); both gates precede the exact-match step. -/
theorem C2_amended (idx : Index) (q : String) (e : Entry)
    (hx : exactFind idx (_normalize (some (pyStrip q))) = some e)
    (hy : (_extract_year (pyStrip q)).isSome = true)
    (hl : MIN_QUERY_LEN ≤ (_normalize (some (pyStrip q))).length) :
    build_reply_single_year idx q = _format_answer e := by
  have h0 : ¬ pyStrip q = "" := by
    intro he
    rw [he] at hl
    exact absurd hl (by decide)
  simp only [build_reply_single_year, if_neg h0]
  rcases hy2 : _extract_year (pyStrip q) with _ | y
  · rw [hy2] at hy
    exact absurd hy (by decide)
  · rw [if_neg (Nat.not_lt.mpr hl)]
    have hk : ¬ _normalize (some (pyStrip q)) = "" := by
      intro he2
      rw [he2] at hl
      exact absurd hl (by decide)
    have hm : _match_by_exact idx (pyStrip q) = some e := by
      simp only [_match_by_exact, if_neg hk]
      exact hx
    rw [hm]

/-- Witness for C2: a concrete exact-match query with a year and sufficient
length returns the stored description. -/
theorem C2_witness :
    build_reply_single_year
        (mkIndex [("113年工務局主管預算數", "總計100人", "", "")])
        "113年工務局主管預算數" =
      _format_answer ⟨"113年工務局主管預算數", "113年工務局主管預算數",
        "工務局主管預算數", some "113", "總計100人", "", ""⟩ :=
  C2_amended (mkIndex [("113年工務局主管預算數", "總計100人", "", "")])
    "113年工務局主管預算數"
    ⟨"113年工務局主管預算數", "113年工務局主管預算數", "工務局主管預算數",
      some "113", "總計100人", "", ""⟩
    (by decide) (by decide) (by decide)

/-- Claim C7: the coverage score is monotonic — appending characters to the
query never decreases a candidate score, and removing any query character
never increases it — and it always equals
(sum over distinct characters of min(count in candidate, count in query))
divided by the candidate length. -/
theorem C7_coverage :
    (∀ kw q ext : String, _coverage_ratio kw q ≤ _coverage_ratio kw (q ++ ext)) ∧
    (∀ (kw : String) (l1 l2 : List Char) (c : Char),
      _coverage_ratio kw ⟨l1 ++ l2⟩ ≤ _coverage_ratio kw ⟨l1 ++ c :: l2⟩) ∧
    (∀ kw q : String,
      _coverage_ratio kw q = (hitCount kw.data q.data : ℚ) / (kw.length : ℚ)) := by
  refine ⟨?_, ?_, ?_⟩
  · intro kw q ext
    have h : ∀ c : Char, q.data.count c ≤ (q ++ ext).data.count c := by
      intro c
      rw [String.data_append, List.count_append]
      exact Nat.le_add_right _ _
    exact coverage_mono kw h
  · intro kw l1 l2 c
    have h : ∀ d : Char, (l1 ++ l2).count d ≤ (l1 ++ c :: l2).count d := by
      intro d
      rw [List.count_append, List.count_append, List.count_cons]
      exact Nat.add_le_add_left (Nat.le_add_right _ _) _
    exact coverage_mono kw h
  · intro kw q
    by_cases hk : kw = ""
    · subst hk
      have h1 : hitCount ("" : String).data q.data = 0 := rfl
      simp [_coverage_ratio, h1]
    · simp only [_coverage_ratio, if_neg hk, Rat.mkRat_eq_div]
      have hdata : kw.data ≠ [] := by
        intro hd
        apply hk
        cases kw
        simp at hd
        simp [hd]
      have hpos : 1 ≤ kw.length := List.length_pos.mpr hdata
      rw [Nat.max_eq_right hpos]
      push_cast
      rfl

/-- Claim C8: when the query carries a year, ranking works on exactly the
entries whose `year` equals it (the output is a permutation of the scored
year-filtered candidates, and every ranked item has that year), and the
output is sorted descending by score with longer normalized keywords first
among equal scores (`rankRel`). -/
theorem C8_rank (idx : Index) (q : String) (y : String)
    (hy : _extract_year q = some y)
    (hn : ¬ _normalize (some q) = "") :
    ((_rank_matches idx q true).Perm
      ((idx.entries.filter (fun e => e.year == some y)).map
        (fun e => (_coverage_ratio e.keyword_norm (_normalize (some q)),
                   e.keyword_norm.length, e)))) ∧
    List.Sorted rankRel (_rank_matches idx q true) ∧
    ∀ x ∈ _rank_matches idx q true, x.2.2.year = some y := by
  have hdef : _rank_matches idx q true =
      List.insertionSort rankRel
        ((idx.entries.filter (fun e => e.year == some y)).map
          (fun e => (_coverage_ratio e.keyword_norm (_normalize (some q)),
                     e.keyword_norm.length, e))) := by
    simp only [_rank_matches, if_neg hn, if_true, hy]
  refine ⟨?_, ?_, ?_⟩
  · rw [hdef]
    exact List.perm_insertionSort _ _
  · rw [hdef]
    exact List.sorted_insertionSort _ _
  · intro x hx
    rw [hdef] at hx
    have hx2 := (List.perm_insertionSort rankRel _).mem_iff.mp hx
    obtain ⟨e2, he2, rfl⟩ := List.mem_map.mp hx2
    exact beq_iff_eq.mp (List.mem_filter.mp he2).2

/-- Witness for C8: the ranking of a concrete year-carrying query over a
concrete index is sorted by `rankRel`. -/
theorem C8_witness :
    List.Sorted rankRel
      (_rank_matches
        (mkIndex [("113年甲乙丙", "d1", "", ""), ("112年甲乙丙", "d2", "", ""),
                  ("113年甲乙", "d3", "", "")])
        "113年甲乙丙丁戊" true) :=
  (C8_rank
    (mkIndex [("113年甲乙丙", "d1", "", ""), ("112年甲乙丙", "d2", "", ""),
              ("113年甲乙", "d3", "", "")])
    "113年甲乙丙丁戊" "113" (by decide) (by decide)).2.1

theorem containsSub_iff (pat l : List Char) :
    containsSub pat l = true ↔ ∃ a b, l = a ++ (pat ++ b) := by
  induction l with
  | nil =>
    simp only [containsSub, List.isPrefixOf_iff_prefix, List.prefix_nil]
    constructor
    · intro h
      exact ⟨[], [], by simp [h]⟩
    · rintro ⟨a, b, hab⟩
      rcases List.append_eq_nil.mp hab.symm with ⟨rfl, h2⟩
      rcases List.append_eq_nil.mp h2 with ⟨rfl, rfl⟩
      rfl
  | cons c rest ih =>
    simp only [containsSub, Bool.or_eq_true, ih, List.isPrefixOf_iff_prefix]
    constructor
    · rintro (⟨t, ht⟩ | ⟨a, b, rfl⟩)
      · exact ⟨[], t, by simp [ht.symm]⟩
      · exact ⟨c :: a, b, rfl⟩
    · rintro ⟨a, b, hab⟩
      cases a with
      | nil =>
        left
        exact ⟨b, by simpa using hab.symm⟩
      | cons a0 a2 =>
        right
        simp only [List.cons_append, List.cons.injEq] at hab
        exact ⟨a2, b, hab.2⟩

theorem containsSub_of_isPrefix {pat l1 l2 : List Char} (h : l1 <+: l2)
    (hc : containsSub pat l1 = true) : containsSub pat l2 = true := by
  obtain ⟨t, rfl⟩ := h
  obtain ⟨a, b, rfl⟩ := (containsSub_iff pat l1).mp hc
  exact (containsSub_iff pat _).mpr ⟨a, b ++ t, by simp⟩

theorem pyRstripL_isPrefix (l : List Char) : pyRstripL l <+: l := by
  unfold pyRstripL
  conv_rhs => rw [← List.reverse_reverse l]
  exact List.reverse_prefix.mpr (List.dropWhile_suffix _)

theorem isEmpty_reverse_eq (l : List Char) : l.reverse.isEmpty = l.isEmpty := by
  rcases he : l.isEmpty with _ | _
  · refine Bool.eq_false_iff.mpr ?_
    intro hc
    rw [List.isEmpty_iff, List.reverse_eq_nil_iff, ← List.isEmpty_iff, he] at hc
    exact Bool.noConfusion hc
  · rw [List.isEmpty_iff.mp he]
    rfl

theorem pyRstripL_cons (c : Char) (rest : List Char) :
    pyRstripL (c :: rest) =
      if (pyRstripL rest).isEmpty then (List.dropWhile isPySpace [c]).reverse
      else c :: pyRstripL rest := by
  unfold pyRstripL
  rw [List.reverse_cons, List.dropWhile_append, isEmpty_reverse_eq]
  rcases he : (List.dropWhile isPySpace rest.reverse).isEmpty with _ | _
  · simp only [Bool.false_eq_true, if_false, List.reverse_append, List.reverse_cons,
      List.reverse_nil, List.nil_append, List.singleton_append]
  · simp only [if_true]

theorem pyRstripL_dropWhile_comm (l : List Char) :
    (pyRstripL l).dropWhile isPySpace = pyRstripL (l.dropWhile isPySpace) := by
  induction l with
  | nil => rfl
  | cons c rest ih =>
    rcases hc : isPySpace c with _ | _
    · have hdr : List.dropWhile isPySpace (c :: rest) = c :: rest :=
        List.dropWhile_cons_of_neg (by simp [hc])
      rw [pyRstripL_cons, hdr, pyRstripL_cons]
      rcases he : (pyRstripL rest).isEmpty with _ | _
      · simp only [Bool.false_eq_true, if_false]
        exact List.dropWhile_cons_of_neg (by simp [hc])
      · simp only [if_true]
        simp [List.dropWhile, hc]
    · have hdr : List.dropWhile isPySpace (c :: rest) = List.dropWhile isPySpace rest :=
        List.dropWhile_cons_of_pos hc
      rw [pyRstripL_cons, hdr, ← ih]
      rcases he : (pyRstripL rest).isEmpty with _ | _
      · simp only [Bool.false_eq_true, if_false]
        exact List.dropWhile_cons_of_pos hc
      · simp only [if_true]
        rw [List.dropWhile_cons_of_pos hc, List.isEmpty_iff.mp he]
        rfl

theorem pyRstripL_idem (l : List Char) : pyRstripL (pyRstripL l) = pyRstripL l := by
  unfold pyRstripL
  rw [List.reverse_reverse, List.dropWhile_idempotent]

theorem pyStrip_pyRstrip (s : String) : pyStrip (pyRstrip s) = pyStrip s := by
  show (⟨pyStripL (pyRstripL s.data)⟩ : String) = ⟨pyStripL s.data⟩
  have key : pyStripL (pyRstripL s.data) = pyStripL s.data := by
    show pyRstripL ((pyRstripL s.data).dropWhile isPySpace) =
      pyRstripL (s.data.dropWhile isPySpace)
    rw [pyRstripL_dropWhile_comm, pyRstripL_idem]
  rw [key]

theorem _is_success_reply_rstrip (s : String) :
    _is_success_reply (pyRstrip s) = _is_success_reply s := by
  unfold _is_success_reply
  rw [pyStrip_pyRstrip]

theorem strEndsWith_append_self (a b : String) : strEndsWith (a ++ b) b = true := by
  unfold strEndsWith
  rw [String.data_append]
  exact List.isSuffixOf_iff_suffix.mpr (List.suffix_append _ _)

theorem strEndsWith_self (b : String) : strEndsWith b b = true := by
  unfold strEndsWith
  exact List.isSuffixOf_iff_suffix.mpr (List.suffix_refl _)

theorem strEndsWith_of_not_suffix {F2 : String} (s : String)
    (h : ¬ F2.data <:+ s.data) : strEndsWith s F2 = false := by
  unfold strEndsWith
  refine Bool.eq_false_iff.mpr ?_
  intro hc
  exact h (List.isSuffixOf_iff_suffix.mp hc)

theorem strEndsWith_append_false {F1 F2 : String} (a : String)
    (h1 : ¬ F2.data <:+ F1.data) (h2 : ¬ F1.data <:+ F2.data) :
    strEndsWith (a ++ F1) F2 = false := by
  unfold strEndsWith
  rw [String.data_append]
  refine Bool.eq_false_iff.mpr ?_
  intro hc
  rcases List.suffix_or_suffix_of_suffix (List.isSuffixOf_iff_suffix.mp hc)
      (List.suffix_append a.data F1.data) with h | h
  · exact h1 h
  · exact h2 h

/-- Counterexample for C10: when an indexed description itself contains the
survey URL, the dedup guard of `_append_survey_footer` suppresses the
footer entirely, so the reply ends with neither footer. -/
theorem C10_counterexample :
    strEndsWith
        (build_reply
          (mkIndex [("113年工務局主管預算數",
                     "詳見 https://forms.gle/EzvDwUyq5A8sCQrS7", "", "")])
          "113年工務局主管預算數")
        SURVEY_FOOTER_SUCCESS = false ∧
    strEndsWith
        (build_reply
          (mkIndex [("113年工務局主管預算數",
                     "詳見 https://forms.gle/EzvDwUyq5A8sCQrS7", "", "")])
          "113年工務局主管預算數")
        SURVEY_FOOTER_FALLBACK = false := by
  refine ⟨by decide, by decide⟩

/-- Claim C10 as amended: whenever the pre-footer reply body does not
already contain the survey URL, the final reply ends with exactly one of
the two survey footers — the success footer precisely when the body is
classified as a data answer by `_is_success_reply`, the fallback footer
otherwise; and when the (right-stripped) body already contains the survey
URL, `_append_survey_footer` appends nothing, so the footer is never
attached twice. -/
theorem C10_amended (idx : Index) (t : String)
    (h : strContains (build_reply_body idx t) SURVEY_URL = false) :
    strEndsWith (build_reply idx t) SURVEY_FOOTER_SUCCESS =
      _is_success_reply (build_reply_body idx t) ∧
    strEndsWith (build_reply idx t) SURVEY_FOOTER_FALLBACK =
      (!_is_success_reply (build_reply_body idx t)) ∧
    (∀ s : String, strContains (pyRstrip s) SURVEY_URL = true →
      _append_survey_footer s = pyRstrip s) := by
  have hfs : ¬ (SURVEY_FOOTER_FALLBACK.data <:+ SURVEY_FOOTER_SUCCESS.data) := by decide
  have hsf : ¬ (SURVEY_FOOTER_SUCCESS.data <:+ SURVEY_FOOTER_FALLBACK.data) := by decide
  have hr : strContains (pyRstrip (build_reply_body idx t)) SURVEY_URL = false := by
    refine Bool.eq_false_iff.mpr ?_
    intro hc
    have h2 : strContains (build_reply_body idx t) SURVEY_URL = true := by
      unfold strContains at hc ⊢
      exact containsSub_of_isPrefix (pyRstripL_isPrefix _) hc
    rw [h2] at h
    exact Bool.noConfusion h
  have hsucc := _is_success_reply_rstrip (build_reply_body idx t)
  have hstep : build_reply idx t =
      (if pyRstrip (build_reply_body idx t) = ""
       then (if _is_success_reply (build_reply_body idx t) then SURVEY_FOOTER_SUCCESS
             else SURVEY_FOOTER_FALLBACK)
       else pyRstrip (build_reply_body idx t) ++ "\n" ++
         (if _is_success_reply (build_reply_body idx t) then SURVEY_FOOTER_SUCCESS
          else SURVEY_FOOTER_FALLBACK)) := by
    show _append_survey_footer (build_reply_body idx t) = _
    simp only [_append_survey_footer, hr, hsucc, Bool.false_eq_true, if_false]
  refine ⟨?_, ?_, ?_⟩
  · rcases hcase : _is_success_reply (build_reply_body idx t) with _ | _
    · rw [hstep, hcase]
      simp only [Bool.false_eq_true, if_false]
      by_cases hrb : pyRstrip (build_reply_body idx t) = ""
      · rw [if_pos hrb]
        exact strEndsWith_of_not_suffix _ hsf
      · rw [if_neg hrb]
        exact strEndsWith_append_false _ hsf hfs
    · rw [hstep, hcase]
      simp only [if_true]
      have hrb : ¬ pyRstrip (build_reply_body idx t) = "" := by
        intro he
        rw [← hsucc, he] at hcase
        exact absurd hcase (by decide)
      rw [if_neg hrb]
      exact strEndsWith_append_self _ _
  · rcases hcase : _is_success_reply (build_reply_body idx t) with _ | _
    · rw [hstep, hcase]
      simp only [Bool.false_eq_true, if_false, Bool.not_false]
      by_cases hrb : pyRstrip (build_reply_body idx t) = ""
      · rw [if_pos hrb]
        exact strEndsWith_self _
      · rw [if_neg hrb]
        exact strEndsWith_append_self _ _
    · rw [hstep, hcase]
      simp only [if_true, Bool.not_true]
      have hrb : ¬ pyRstrip (build_reply_body idx t) = "" := by
        intro he
        rw [← hsucc, he] at hcase
        exact absurd hcase (by decide)
      rw [if_neg hrb]
      exact strEndsWith_append_false _ hfs hsf
  · intro s hs
    simp only [_append_survey_footer, hs, if_true]

/-- Witness for C10: a concrete body without the survey URL gets exactly the
success footer. -/
theorem C10_witness :
    strEndsWith
        (build_reply (mkIndex [("113年工務局主管預算數", "總計100人", "", "")])
          "113年工務局主管預算數")
        SURVEY_FOOTER_SUCCESS =
      _is_success_reply
        (build_reply_body (mkIndex [("113年工務局主管預算數", "總計100人", "", "")])
          "113年工務局主管預算數") :=
  (C10_amended (mkIndex [("113年工務局主管預算數", "總計100人", "", "")])
    "113年工務局主管預算數" (by decide)).1
